import Mathlib

/-!
Verification development for the Titan Cargo backend (Express + Mongoose,
`src/unnamed/part_000`).  The JavaScript handlers are shallowly embedded as
pure Lean functions: the Mongo collections become explicit `List` stores
passed in and returned, `Date.now()` becomes an explicit `now : Nat`
parameter (seconds), and JSON response shapes become inductive result types
carrying the HTTP status code and the literal body strings from the source.

Library semantics the source relies on are modelled faithfully to the
libraries' documented behaviour and noted at each definition:
  * `jsonwebtoken`: `sign(..., expiresIn)` sets `exp = iat + seconds`;
    `verify` rejects with `TokenExpiredError` when `now >= exp` and with an
    invalid-token error when the signature does not match.  The signature is
    abstracted as the key the token was signed with.
  * `bcryptjs`: `hash`/`compare` are modelled by a deterministic stand-in
    hash; `compare p h` succeeds exactly when `h` is the hash of `p`.
  * Mongoose: document validation (enums, defaults) runs on `save()` but
    NOT on `findByIdAndUpdate` (update validators are off by default);
    `populate` replaces a stored id with the referenced document, and a
    Document's `toString()` is its `util.inspect` rendering, not the bare id.
-/

namespace Cargo

/-- `config.environment`: `process.env.NODE_ENV || 'development'`. -/
def defaultEnvironment : String := "development"

/-! ### JS string split

`authHeader.split(' ')` splits on every single space character, keeping
empty fields (`'a  b'.split(' ') = ['a','','b']`, `''.split(' ') = ['']`).
Embedded by structural recursion over the character list so that concrete
instances reduce by `decide`. -/

/-- Accumulator-passing core of JavaScript `String.prototype.split(' ')`. -/
def jsSplitSpaceAux : List Char → List Char → List String
  | [], acc => [⟨acc.reverse⟩]
  | c :: cs, acc =>
    if c = ' ' then ⟨acc.reverse⟩ :: jsSplitSpaceAux cs []
    else jsSplitSpaceAux cs (c :: acc)

/-- JavaScript `s.split(' ')`. -/
def jsSplitSpace (s : String) : List String :=
  jsSplitSpaceAux s.data []

/-- Split on runs of whitespace, dropping empty fields: the list of
whitespace-separated words of a string (used to state claims phrased in
terms of "whitespace-separated words"; the code itself uses `split(' ')`). -/
def wsSplitAux : List Char → List Char → List String
  | [], acc => [⟨acc.reverse⟩]
  | c :: cs, acc =>
    if c.isWhitespace then ⟨acc.reverse⟩ :: wsSplitAux cs []
    else wsSplitAux cs (c :: acc)

/-- The whitespace-separated words of `s`. -/
def wsWords (s : String) : List String :=
  (wsSplitAux s.data []).filter (fun w => w ≠ "")

/-! ### Token Service (`jsonwebtoken` as used by the source)

`jwt.sign({ userId, email, role }, config.jwtSecret, { expiresIn: '24h' })`
(lines 182-186 and 225-229) and `jwt.verify(token, config.jwtSecret, cb)`
(line 43). -/

/-- The claims payload `{ userId, email, role }` put into every token. -/
structure TokenClaims where
  userId : String
  email : String
  role : String
deriving DecidableEq, Repr

/-- A signed JWT: payload plus issued-at/expiry (seconds) and, abstracting
the HMAC signature, the key it was signed with. -/
structure SignedToken where
  userId : String
  email : String
  role : String
  iat : Nat
  exp : Nat
  sigKey : String
deriving DecidableEq, Repr

/-- `expiresIn: '24h'` in seconds. -/
def expiresIn24h : Nat := 24 * 3600

/-- `jwt.sign({ userId, email, role }, secret, { expiresIn: '24h' })` at
current time `now` (seconds): `iat = now`, `exp = now + 86400`. -/
def jwtSign (secret : String) (now : Nat) (c : TokenClaims) : SignedToken :=
  { userId := c.userId, email := c.email, role := c.role,
    iat := now, exp := now + expiresIn24h, sigKey := secret }

/-- Verification failures of `jwt.verify`. -/
inductive VerifyError where
  | expired
  | invalid
deriving DecidableEq, Repr

/-- `jwt.verify(token, secret, cb)`: signature mismatch is invalid; the
token is expired when the clock timestamp has reached `exp`
(`jsonwebtoken` rejects when `clockTimestamp >= payload.exp`). -/
def jwtVerify (secret : String) (now : Nat) (t : SignedToken) :
    Except VerifyError TokenClaims :=
  if t.sigKey ≠ secret then .error .invalid
  else if t.exp ≤ now then .error .expired
  else .ok { userId := t.userId, email := t.email, role := t.role }

/-! ### Credential Store (`User` model) -/

/-- `userSchema.role` enum (line 75). -/
def roleEnum : List String := ["admin", "user", "driver", "pilot"]

/-- A stored `User` document. -/
structure User where
  id : String
  name : String
  email : String
  password : String
  role : String
  phone : Option String
  address : Option String
  createdAt : Nat
  lastLogin : Option Nat
deriving DecidableEq, Repr

/-- Stand-in for `bcrypt.hash(password, 10)`: deterministic one-way hash
(the salt is irrelevant to the claims; only `compare`'s success condition
matters). -/
def bcryptHash (password : String) : String :=
  "$2b$10$" ++ password

/-- `bcrypt.compare(candidate, storedHash)`: succeeds exactly when the
stored hash is the hash of the candidate. -/
def bcryptCompare (candidate storedHash : String) : Bool :=
  storedHash == bcryptHash candidate

/-! ### Auth Gate (`authenticateToken`, lines 35-50) -/

/-- Outcome of the `authenticateToken` middleware: 401 before any
verification, 403 on failed verification, or proceed with `req.user`
set to the embedded claims. -/
inductive GateResult where
  | unauthenticated (status : Nat) (error : String)
  | forbidden (status : Nat) (error : String)
  | proceed (user : TokenClaims)
deriving DecidableEq, Repr

/-- `const token = authHeader && authHeader.split(' ')[1]` followed by the
JS truthiness test `if (!token)`: yields the token string only when the
header is present, has a field at index 1, and that field is non-empty
(the empty string is falsy in JS). -/
def extractedToken (authHeader : Option String) : Option String :=
  match authHeader with
  | none => none
  | some h =>
    match (jsSplitSpace h).get? 1 with
    | none => none
    | some t => if t = "" then none else some t

/-- The verification step of the middleware: `jwt.verify`'s callback maps
an error to 403 and success to attaching the claims.  Abstracted over
`verifyStr`, the behaviour of `jwt.verify` on a raw header substring. -/
def verifyStep (verifyStr : String → Option TokenClaims) (t : String) :
    GateResult :=
  match verifyStr t with
  | none => .forbidden 403 "Invalid or expired token"
  | some user => .proceed user

/-- `authenticateToken` (lines 35-50).  The `users` store is in scope for
every handler (the `User` model is a module-level constant) but the
middleware never reads it — it is a pure boundary check. -/
def authenticateToken (users : List User)
    (verifyStr : String → Option TokenClaims)
    (authHeader : Option String) : GateResult :=
  match extractedToken authHeader with
  | none => .unauthenticated 401 "Access token required"
  | some t => verifyStep verifyStr t

/-! ### Registration (`userController.register`, lines 156-201) -/

/-- The registration request body destructured at line 158.  `role`,
`phone`, `address` are optional in the incoming JSON (`none` models a
field that is absent / `undefined`). -/
structure RegisterBody where
  name : String
  email : String
  password : String
  role : Option String
  phone : Option String
  address : Option String
deriving DecidableEq, Repr

/-- The `user` object put into the 201 response (id, name, email, role —
no password). -/
structure PublicUser where
  id : String
  name : String
  email : String
  role : String
deriving DecidableEq, Repr

/-- Outcome of `register`. `duplicate` is the 400 at line 163;
`serverError` is the catch-all 500 at line 199 carrying `error.message`;
`created` is the 201 with the fresh token and public user. -/
inductive RegisterResult where
  | duplicate (status : Nat) (error : String)
  | serverError (status : Nat) (error : String)
  | created (status : Nat) (token : SignedToken) (user : PublicUser)
deriving DecidableEq, Repr

/-- Mongoose `save()`-time handling of the `role` path: `undefined` takes
the schema default `'user'`; a present value outside the declared enum
makes `save()` reject with a `ValidationError` (enum validation runs on
`save`). -/
def validateRole (role : Option String) : Except String String :=
  match role with
  | none => .ok "user"
  | some r =>
    if r ∈ roleEnum then .ok r
    else .error ("User validation failed: role: `" ++ r ++
      "` is not a valid enum value for path `role`.")

/-- `userController.register` (lines 156-201): duplicate-email check, then
`bcrypt.hash(password, 10)`, then `user.save()` (where the mongoose role
default/enum validation happens; a `ValidationError` lands in the catch
block as a 500), then `jwt.sign` and the 201 response.  `newId` is the
fresh `_id` the store assigns. -/
def register (store : List User) (secret : String) (now : Nat)
    (newId : String) (b : RegisterBody) : RegisterResult × List User :=
  match store.find? (fun u => u.email == b.email) with
  | some _ => (.duplicate 400 "User already exists", store)
  | none =>
    let hashedPassword := bcryptHash b.password
    match validateRole b.role with
    | .error msg => (.serverError 500 msg, store)
    | .ok role =>
      let user : User :=
        { id := newId, name := b.name, email := b.email,
          password := hashedPassword, role := role,
          phone := b.phone, address := b.address,
          createdAt := now, lastLogin := none }
      let token := jwtSign secret now
        { userId := newId, email := b.email, role := role }
      (.created 201 token
        { id := newId, name := b.name, email := b.email, role := role },
        store ++ [user])

/-! ### Login (`userController.login`, lines 204-244) -/

/-- Outcome of `login`: `err` carries the status code and the `error`
body string; `ok` the 200 payload. -/
inductive LoginResult where
  | err (status : Nat) (error : String)
  | ok (status : Nat) (token : SignedToken) (user : PublicUser)
deriving DecidableEq, Repr

/-- `userController.login` (lines 204-244): look up by email (400
`Invalid credentials` if absent), `bcrypt.compare` (the same 400 on
mismatch), else update `lastLogin`, save, sign a fresh token, 200. -/
def login (store : List User) (secret : String) (email password : String)
    (now : Nat) : LoginResult × List User :=
  match store.find? (fun u => u.email == email) with
  | none => (.err 400 "Invalid credentials", store)
  | some user =>
    if bcryptCompare password user.password then
      let updated := { user with lastLogin := some now }
      let token := jwtSign secret now
        { userId := user.id, email := user.email, role := user.role }
      (.ok 200 token
        { id := user.id, name := user.name, email := user.email,
          role := user.role },
        store.map (fun u => if u.id == user.id then updated else u))
    else
      (.err 400 "Invalid credentials", store)

/-! ### Booking model and controller -/

/-- `bookingSchema.cargoDetails.type` enum (line 94). -/
def cargoTypeEnum : List String := ["general", "hazardous", "perishable", "valuable"]

/-- `bookingSchema.status` enum (line 104). -/
def bookingStatusEnum : List String :=
  ["pending", "confirmed", "in-transit", "delivered", "cancelled"]

/-- `bookingSchema.paymentStatus` enum (line 108). -/
def paymentStatusEnum : List String := ["pending", "paid", "refunded"]

/-- `cargoDetails.dimensions` (optional numeric fields). -/
structure Dimensions where
  length : Option Int
  width : Option Int
  height : Option Int
deriving DecidableEq, Repr

/-- `cargoDetails` as supplied in a request body; `type` is optional and
defaults to `'general'` at `save()`. -/
structure CargoDetails where
  description : String
  weight : Int
  dimensions : Option Dimensions
  type : Option String
deriving DecidableEq, Repr

/-- `route` subdocument of a booking. -/
structure BookingRoute where
  fromLoc : String
  toLoc : String
  departureDate : Nat
  arrivalDate : Nat
deriving DecidableEq, Repr

/-- A stored `Booking` document. -/
structure Booking where
  id : String
  airwayBill : String
  clientId : String
  cargoDescription : String
  cargoWeight : Int
  cargoDimensions : Option Dimensions
  cargoType : String
  route : BookingRoute
  status : String
  price : Int
  paymentStatus : String
  createdAt : Nat
  updatedAt : Nat
deriving DecidableEq, Repr

/-- The create-booking request body.  Line 281-285 destructures only
`cargoDetails`, `route`, `price`; the `status`, `paymentStatus` and
`clientId` fields model any such values an attacker puts in the JSON
body — the handler never reads them. -/
structure CreateBookingBody where
  cargoDetails : CargoDetails
  route : BookingRoute
  price : Int
  status : Option String
  paymentStatus : Option String
  clientId : Option String
deriving DecidableEq, Repr

/-- Outcome of `createBooking`. -/
inductive CreateBookingResult where
  | serverError (status : Nat) (error : String)
  | created (status : Nat) (booking : Booking)
deriving DecidableEq, Repr

/-- `bookingController.createBooking` (lines 279-303): builds the document
from `{ airwayBill, clientId: req.user.userId, cargoDetails, route,
price }` only; at `save()` mongoose fills the schema defaults
`status='pending'`, `paymentStatus='pending'`, `cargoDetails.type=
'general'` (or rejects an out-of-enum cargo type with a ValidationError
→ catch → 500).  `awb` and `newId` are the generated airway bill and
fresh `_id`; `caller` is `req.user` attached by the auth gate.

`validateCargoType` is the `save()`-time handling of the
`cargoDetails.type` path: default `'general'` when absent, enum
validation when present. -/
def validateCargoType (t : Option String) : Except String String :=
  match t with
  | none => .ok "general"
  | some ct =>
    if ct ∈ cargoTypeEnum then .ok ct
    else .error ("Booking validation failed: cargoDetails.type: `" ++ ct ++
      "` is not a valid enum value for path `cargoDetails.type`.")

/-- `bookingController.createBooking` proper; see the comment above. -/
def createBooking (store : List Booking) (caller : TokenClaims)
    (b : CreateBookingBody) (now : Nat) (awb : String) (newId : String) :
    CreateBookingResult × List Booking :=
  match validateCargoType b.cargoDetails.type with
  | .error msg => (.serverError 500 msg, store)
  | .ok ctype =>
    let booking : Booking :=
      { id := newId, airwayBill := awb, clientId := caller.userId,
        cargoDescription := b.cargoDetails.description,
        cargoWeight := b.cargoDetails.weight,
        cargoDimensions := b.cargoDetails.dimensions,
        cargoType := ctype, route := b.route,
        status := "pending", price := b.price,
        paymentStatus := "pending", createdAt := now, updatedAt := now }
    (.created 201 booking, store ++ [booking])

/-- Outcome of `getBookingById`: 404, 403, 500 (thrown `TypeError` when a
populated `clientId` is null), or the booking. -/
inductive GetBookingResult where
  | notFound (status : Nat) (error : String)
  | forbidden (status : Nat) (error : String)
  | serverError (status : Nat) (error : String)
  | ok (status : Nat) (booking : Booking)
deriving DecidableEq, Repr

/-- `util.inspect` rendering of a `User` document populated with
`select: 'name email'` — what mongoose `Document.prototype.toString()`
returns for the populated `booking.clientId`.  The exact format is
immaterial to the proofs; what matters (and holds for any rendering of
the whole document) is that it is the id wrapped in additional text,
never the bare id string. -/
def populatedToString (u : User) : String :=
  "\x7b _id: new ObjectId(" ++ u.id ++ "), name: " ++ u.name ++
    ", email: " ++ u.email ++ " \x7d"

/-- `bookingController.getBookingById` (lines 324-342):
`findById(...).populate('clientId', 'name email')`; 404 if absent; then
`if (req.user.role !== 'admin' && booking.clientId.toString() !==
req.user.userId)` → 403; otherwise the booking.  The populated
`clientId` is the referenced `User` document (null → `.toString()`
throws, caught as a 500), and its `toString()` is the inspect rendering,
not the id. -/
def getBookingById (users : List User) (store : List Booking)
    (caller : TokenClaims) (id : String) : GetBookingResult :=
  match store.find? (fun b => b.id == id) with
  | none => .notFound 404 "Booking not found"
  | some booking =>
    if caller.role ≠ "admin" then
      match users.find? (fun u => u.id == booking.clientId) with
      | none =>
        .serverError 500 "Cannot read properties of null (reading toString)"
      | some client =>
        if populatedToString client ≠ caller.userId then
          .forbidden 403 "Access denied"
        else .ok 200 booking
    else .ok 200 booking

/-- Outcome of `updateBookingStatus`. -/
inductive UpdateStatusResult where
  | notFound (status : Nat) (error : String)
  | ok (status : Nat) (booking : Booking)
deriving DecidableEq, Repr

/-- `findByIdAndUpdate` touches exactly one document: replace the first
(and, ids being unique, only) element with the given id. -/
def updateById : List Booking → String → Booking → List Booking
  | [], _, _ => []
  | b :: bs, id, updated =>
    if b.id == id then updated :: bs else b :: updateById bs id updated

/-- `bookingController.updateBookingStatus` (lines 345-362):
`findByIdAndUpdate(id, { status, updatedAt }, { new: true })`.  Mongoose
runs NO validators on update operations by default, so the new status is
written to the store unvalidated; 404 only when the id is absent. -/
def updateBookingStatus (store : List Booking) (id : String)
    (newStatus : String) (now : Nat) : UpdateStatusResult × List Booking :=
  match store.find? (fun b => b.id == id) with
  | none => (.notFound 404 "Booking not found", store)
  | some booking =>
    let updated := { booking with status := newStatus, updatedAt := now }
    (.ok 200 updated, updateById store id updated)

/-! ### Aggregation (`dashboardController.getStats`, lines 473-506) -/

/-- The `$match paymentStatus: 'paid'` / `$group _id: null, total: $sum
$price` pipeline (lines 476-479): a one-element list holding the sum when
at least one document matches, the empty list otherwise (`$group` over an
empty input produces no output document). -/
def aggregateTotalRevenue (store : List Booking) : List Int :=
  match store.filter (fun b => b.paymentStatus == "paid") with
  | [] => []
  | x :: xs => [(x :: xs).foldl (fun acc b => acc + b.price) 0]

/-- `totalRevenue: totalRevenue[0]?.total || 0` (line 495): optional
chaining on the empty pipeline result gives `undefined`, and `|| 0` maps
both `undefined` and a falsy `0` total to `0`. -/
def statsTotalRevenue (store : List Booking) : Int :=
  match (aggregateTotalRevenue store).head? with
  | none => 0
  | some total => if total = 0 then 0 else total

/-! ### 500-error response shapes (claim C9) -/

/-- Body of a 500 response: the `error` string plus the optional
`message` field only the central `errorHandler` adds. -/
structure ErrorBody where
  error : String
  message : Option String
deriving DecidableEq, Repr

/-- The controllers' catch blocks (e.g. lines 198-200, 300-302):
`res.status(500).json({ error: error.message })` — the raw exception
message goes into `error`, with no environment gating. -/
def catchResponse (errMessage : String) : Nat × ErrorBody :=
  (500, { error := errMessage, message := none })

/-- `errorHandler` (lines 53-59): fixed `error` string, and `message` is
the exception detail only in development mode. -/
def errorHandlerResponse (environment : String) (errMessage : String) :
    Nat × ErrorBody :=
  (500, { error := "Something went wrong!",
          message := some (if environment = "development" then errMessage
            else "Internal server error") })

/-! ## Theorems -/

/-- C1: a token issued at time `T` carries an expiry of exactly `T` plus
24 hours; verification with the signing secret succeeds at every time
strictly before `T + 24h` and fails (expired) at every time after
`T + 24h`. -/
theorem c1_token_validity (secret : String) (c : TokenClaims) (T t : Nat) :
    (jwtSign secret T c).exp = T + expiresIn24h
    ∧ (t < T + expiresIn24h →
        jwtVerify secret t (jwtSign secret T c) = .ok c)
    ∧ (T + expiresIn24h < t →
        jwtVerify secret t (jwtSign secret T c) = .error .expired) := by
  refine ⟨rfl, fun h => ?_, fun h => ?_⟩
  · simp only [jwtVerify, jwtSign]
    rw [if_neg (by simp), if_neg (by simpa using Nat.not_le.mpr h)]
  · simp only [jwtVerify, jwtSign]
    rw [if_neg (by simp), if_pos (by simpa using Nat.le_of_lt h)]

/-- Witness for C1 at `T = 0`: accepted at 23h59m (86340 s), rejected at
24h01m (86460 s). -/
theorem c1_token_validity_witness :
    jwtVerify "k" 86340 (jwtSign "k" 0 ⟨"u1", "a@x.com", "user"⟩)
      = .ok ⟨"u1", "a@x.com", "user"⟩
    ∧ jwtVerify "k" 86460 (jwtSign "k" 0 ⟨"u1", "a@x.com", "user"⟩)
      = .error .expired :=
  ⟨(c1_token_validity "k" ⟨"u1", "a@x.com", "user"⟩ 0 86340).2.1 (by decide),
   (c1_token_validity "k" ⟨"u1", "a@x.com", "user"⟩ 0 86460).2.2 (by decide)⟩

/-- C4: login with an existing email and a non-matching password, and
login with an email present in no stored identity, return the identical
error — same status code 400 and same body `Invalid credentials`. -/
theorem c4_login_uniform_error (store : List User) (secret : String)
    (e1 p1 e2 p2 : String) (n1 n2 : Nat) (u : User)
    (h1 : store.find? (fun x => x.email == e1) = some u)
    (h2 : bcryptCompare p1 u.password = false)
    (h3 : store.find? (fun x => x.email == e2) = none) :
    (login store secret e1 p1 n1).1 = .err 400 "Invalid credentials"
    ∧ (login store secret e2 p2 n2).1 = .err 400 "Invalid credentials"
    ∧ (login store secret e1 p1 n1).1 = (login store secret e2 p2 n2).1 := by
  refine ⟨?_, ?_, ?_⟩ <;> simp [login, h1, h2, h3]

/-- Stored identity used by the C4 witness. -/
def c4User : User :=
  ⟨"u1", "Ada", "a@x.com", bcryptHash "pw1", "user", none, none, 0, none⟩

/-- Witness for C4: wrong password for `a@x.com` and unknown email
`b@x.com` both yield the same 400 response. -/
theorem c4_login_uniform_error_witness :
    (login [c4User] "k" "a@x.com" "wrong" 5).1 = .err 400 "Invalid credentials"
    ∧ (login [c4User] "k" "b@x.com" "pw1" 6).1 = .err 400 "Invalid credentials" :=
  ⟨(c4_login_uniform_error [c4User] "k" "a@x.com" "wrong" "b@x.com" "pw1" 5 6
      c4User (by decide) (by decide) (by decide)).1,
   (c4_login_uniform_error [c4User] "k" "a@x.com" "wrong" "b@x.com" "pw1" 5 6
      c4User (by decide) (by decide) (by decide)).2.1⟩

/-- C5: the auth gate answers 401 `Access token required` when no token
can be extracted from the authorization header, 403 `Invalid or expired
token` when verification of the extracted token fails, attaches the
verified claims on success, and its outcome never depends on the user
store (no Credential Store lookup in any of the three cases). -/
theorem c5_auth_gate (users users2 : List User)
    (v : String → Option TokenClaims) (hdr : Option String) :
    (extractedToken hdr = none →
      authenticateToken users v hdr = .unauthenticated 401 "Access token required")
    ∧ (∀ t, extractedToken hdr = some t → v t = none →
        authenticateToken users v hdr = .forbidden 403 "Invalid or expired token")
    ∧ (∀ t c, extractedToken hdr = some t → v t = some c →
        authenticateToken users v hdr = .proceed c)
    ∧ authenticateToken users v hdr = authenticateToken users2 v hdr := by
  refine ⟨fun h => ?_, fun t h hv => ?_, fun t c h hv => ?_, rfl⟩
  · simp [authenticateToken, h]
  · simp [authenticateToken, verifyStep, h, hv]
  · simp [authenticateToken, verifyStep, h, hv]

/-- Witness for C5: a header carrying a token that fails verification is
answered with 403. -/
theorem c5_auth_gate_witness :
    authenticateToken [] (fun _ => none) (some "Bearer abc")
      = .forbidden 403 "Invalid or expired token" :=
  (c5_auth_gate [] [] (fun _ => none) (some "Bearer abc")).2.1 "abc"
    (by decide) rfl

/-- Claim C2 as stated: for every registration whose email is fresh and
whose role field is absent or not one of the four recognized roles,
`register` succeeds (201) and persists the identity with role `user`. -/
def c2Claim : Prop :=
  ∀ (store : List User) (secret : String) (now : Nat) (newId : String)
    (b : RegisterBody),
    store.find? (fun u => u.email == b.email) = none →
    (b.role = none ∨ ∀ r, b.role = some r → r ∉ roleEnum) →
    ∃ (t : SignedToken) (pu : PublicUser) (nu : User),
      register store secret now newId b = (.created 201 t pu, store ++ [nu])
      ∧ pu.role = "user" ∧ nu.role = "user"

/-- C2 fails on the code: registering with the unrecognized role
`superadmin` does not succeed with role `user` — mongoose enum validation
rejects the value at `save()` and the handler answers 500. -/
theorem c2_counterexample : ¬ c2Claim := by
  intro hc
  obtain ⟨t, pu, nu, heq, -, -⟩ :=
    hc [] "k" 0 "u1" ⟨"Bob", "b@x.com", "pw2", some "superadmin", none, none⟩
      rfl (Or.inr (by intro r hr; cases hr; decide))
  have hval : register [] "k" 0 "u1"
      ⟨"Bob", "b@x.com", "pw2", some "superadmin", none, none⟩
      = (.serverError 500 ("User validation failed: role: `superadmin` is "
          ++ "not a valid enum value for path `role`."), []) := by decide
  rw [hval] at heq
  have h1 := congrArg Prod.fst heq
  simp at h1

/-- C2 amended: with a fresh email, an absent role defaults to `user` and
registration succeeds; a present role outside the recognized set makes
registration fail with a 500 validation error and leaves the store
unchanged (it is not silently defaulted to `user`). -/
theorem c2_role_default_amended (store : List User) (secret : String)
    (now : Nat) (newId : String) (b : RegisterBody)
    (hfresh : store.find? (fun u => u.email == b.email) = none) :
    (b.role = none →
      register store secret now newId b
        = (.created 201 (jwtSign secret now ⟨newId, b.email, "user"⟩)
            ⟨newId, b.name, b.email, "user"⟩,
           store ++ [⟨newId, b.name, b.email, bcryptHash b.password, "user",
             b.phone, b.address, now, none⟩]))
    ∧ (∀ r, b.role = some r → r ∉ roleEnum →
        register store secret now newId b
          = (.serverError 500 ("User validation failed: role: `" ++ r ++
              "` is not a valid enum value for path `role`."), store)) := by
  constructor
  · intro h
    simp [register, hfresh, validateRole, h]
  · intro r h hr
    simp [register, hfresh, validateRole, h, hr]

/-- Registration body with the role field absent (C2 witness). -/
def c2BodyDefault : RegisterBody := ⟨"Ada", "a@x.com", "pw1", none, none, none⟩

/-- Registration body with an unrecognized role (C2 witness). -/
def c2BodyBadRole : RegisterBody :=
  ⟨"Bob", "b@x.com", "pw2", some "superadmin", none, none⟩

/-- Witness for the amended C2 on an empty store. -/
theorem c2_role_default_amended_witness :
    register [] "k" 0 "u1" c2BodyDefault
      = (.created 201 (jwtSign "k" 0 ⟨"u1", "a@x.com", "user"⟩)
          ⟨"u1", "Ada", "a@x.com", "user"⟩,
         [⟨"u1", "Ada", "a@x.com", bcryptHash "pw1", "user", none, none, 0,
           none⟩])
    ∧ register [] "k" 0 "u2" c2BodyBadRole
      = (.serverError 500 ("User validation failed: role: `superadmin` is "
          ++ "not a valid enum value for path `role`."), []) :=
  ⟨(c2_role_default_amended [] "k" 0 "u1" c2BodyDefault rfl).1 rfl,
   (c2_role_default_amended [] "k" 0 "u2" c2BodyBadRole rfl).2 "superadmin"
     rfl (by decide)⟩

/-- Booking stored for the C3 code-bug evaluation. -/
def c3Booking : Booking :=
  ⟨"b1", "AWB1", "u1", "Electronics", 1200, none, "general",
    ⟨"LAX", "JFK", 10, 20⟩, "pending", 2500, "pending", 0, 0⟩

/-- C3 evaluated at the failing input: `bogus` is outside the declared
status enum, yet `updateBookingStatus` answers 200 and writes `bogus`
into the store (`findByIdAndUpdate` runs no validators), so a booking
does end up holding a status outside the declared set. -/
theorem c3_invalid_status_written :
    "bogus" ∉ bookingStatusEnum
    ∧ updateBookingStatus [c3Booking] "b1" "bogus" 5
        = (.ok 200 { c3Booking with status := "bogus", updatedAt := 5 },
           [{ c3Booking with status := "bogus", updatedAt := 5 }])
    ∧ ((updateBookingStatus [c3Booking] "b1" "bogus" 5).2).map
        (fun b => b.status) = ["bogus"] := by
  refine ⟨by decide, by decide, by decide⟩

/-- Owning identity for the C6 code-bug evaluation. -/
def c6User : User :=
  ⟨"u1", "Ada", "a@x.com", bcryptHash "pw1", "user", none, none, 0, none⟩

/-- Booking owned by `c6User` for the C6 code-bug evaluation. -/
def c6Booking : Booking :=
  ⟨"b1", "AWB1", "u1", "Electronics", 1200, none, "general",
    ⟨"LAX", "JFK", 10, 20⟩, "pending", 2500, "pending", 0, 0⟩

/-- C6 evaluated at the failing input: the caller IS the owning identity
(`userId = clientId = u1`) with role `user`, yet `getBookingById` answers
403 `Access denied`, because the ownership test compares
`booking.clientId.toString()` — the inspect rendering of the populated
`User` document — against the bare `userId`, and the two can never be
equal.  An admin caller still succeeds. -/
theorem c6_owner_denied :
    c6Booking.clientId = c6User.id
    ∧ getBookingById [c6User] [c6Booking] ⟨"u1", "a@x.com", "user"⟩ "b1"
        = .forbidden 403 "Access denied"
    ∧ getBookingById [c6User] [c6Booking] ⟨"a9", "root@x.com", "admin"⟩ "b1"
        = .ok 200 c6Booking
    ∧ getBookingById [c6User] [] ⟨"u1", "a@x.com", "user"⟩ "b1"
        = .notFound 404 "Booking not found" := by
  refine ⟨by decide, by decide, by decide, by decide⟩

/-- `updateById` with a replacement that keeps the owner of the found
document leaves every owner reference in the store unchanged. -/
theorem updateById_map_clientId (bs : List Booking) (id : String)
    (u booking : Booking)
    (hf : bs.find? (fun b => b.id == id) = some booking)
    (hc : u.clientId = booking.clientId) :
    (updateById bs id u).map (fun x => x.clientId)
      = bs.map (fun x => x.clientId) := by
  induction bs with
  | nil => simp at hf
  | cons b bs ih =>
    by_cases hb : (b.id == id) = true
    · rw [List.find?_cons_of_pos (p := fun x => x.id == id) (a := b) bs hb] at hf
      cases hf
      simp [updateById, hb, hc]
    · rw [List.find?_cons_of_neg (p := fun x => x.id == id) (a := b) bs
        (by simpa using hb)] at hf
      simp [updateById, hb, ih hf]

/-- C7: a successfully created booking has `status = pending`,
`paymentStatus = pending` and owner equal to the caller's identity, for
every request body (in particular any `status`, `paymentStatus` or
`clientId` the body supplies is ignored — the handler never reads those
fields); and `updateBookingStatus`, the only operation that mutates
stored bookings, never changes any booking's owner reference. -/
theorem c7_booking_defaults_and_owner (store : List Booking)
    (caller : TokenClaims) (b : CreateBookingBody) (now : Nat)
    (awb newId : String) (bk : Booking) (store2 : List Booking)
    (h : createBooking store caller b now awb newId = (.created 201 bk, store2)) :
    bk.status = "pending" ∧ bk.paymentStatus = "pending"
    ∧ bk.clientId = caller.userId ∧ store2 = store ++ [bk]
    ∧ ∀ (bs : List Booking) (id newStatus : String) (t : Nat),
        ((updateBookingStatus bs id newStatus t).2).map (fun x => x.clientId)
          = bs.map (fun x => x.clientId) := by
  have hupd : ∀ (bs : List Booking) (id newStatus : String) (t : Nat),
      ((updateBookingStatus bs id newStatus t).2).map (fun x => x.clientId)
        = bs.map (fun x => x.clientId) := by
    intro bs id newStatus t
    unfold updateBookingStatus
    cases hf : bs.find? (fun x => x.id == id) with
    | none => simp
    | some booking => exact updateById_map_clientId bs id _ booking hf rfl
  unfold createBooking at h
  split at h
  · simp at h
  · simp only [Prod.mk.injEq, CreateBookingResult.created.injEq,
      true_and] at h
    obtain ⟨hbk, hstore⟩ := h
    subst hbk
    exact ⟨rfl, rfl, rfl, hstore.symm, hupd⟩

/-- Create-booking body carrying decoy `status`, `paymentStatus` and
`clientId` values (C7 witness). -/
def c7Body : CreateBookingBody :=
  { cargoDetails := ⟨"Electronics", 1200, none, some "general"⟩,
    route := ⟨"LAX", "JFK", 10, 20⟩, price := 2500,
    status := some "delivered", paymentStatus := some "paid",
    clientId := some "attacker" }

/-- The booking the C7 witness creation produces. -/
def c7Booking : Booking :=
  ⟨"b1", "AWB1", "u1", "Electronics", 1200, none, "general",
    ⟨"LAX", "JFK", 10, 20⟩, "pending", 2500, "pending", 7, 7⟩

/-- Witness for C7: despite the decoy fields, the created booking is
pending/pending and owned by the caller `u1`. -/
theorem c7_booking_defaults_and_owner_witness :
    c7Booking.status = "pending" ∧ c7Booking.paymentStatus = "pending"
    ∧ c7Booking.clientId = "u1" ∧ [c7Booking] = ([] : List Booking) ++ [c7Booking] :=
  have h := c7_booking_defaults_and_owner [] ⟨"u1", "a@x.com", "user"⟩
    c7Body 7 "AWB1" "b1" c7Booking [c7Booking] (by decide)
  ⟨h.1, h.2.1, h.2.2.1, h.2.2.2.1⟩

/-- Folding `+ price` over a list equals the accumulator plus the sum of
the prices. -/
theorem foldl_price_eq_sum (l : List Booking) (acc : Int) :
    l.foldl (fun a b => a + b.price) acc
      = acc + (l.map (fun b => b.price)).sum := by
  induction l generalizing acc with
  | nil => simp
  | cons x xs ih => simp [List.foldl_cons, ih, List.sum_cons]; ring

/-- C8: the dashboard's `totalRevenue` equals the sum of `price` over
exactly the bookings with `paymentStatus = paid`, and is the number 0
(never null/absent) when no such booking exists. -/
theorem c8_total_revenue (store : List Booking) :
    statsTotalRevenue store
      = ((store.filter (fun b => b.paymentStatus == "paid")).map
          (fun b => b.price)).sum
    ∧ (store.filter (fun b => b.paymentStatus == "paid") = [] →
        statsTotalRevenue store = 0) := by
  have key : statsTotalRevenue store
      = ((store.filter (fun b => b.paymentStatus == "paid")).map
          (fun b => b.price)).sum := by
    unfold statsTotalRevenue aggregateTotalRevenue
    cases h : store.filter (fun b => b.paymentStatus == "paid") with
    | nil => simp
    | cons x xs =>
      simp only [List.head?]
      rw [foldl_price_eq_sum]
      simp only [zero_add]
      split <;> simp_all
  exact ⟨key, fun h => by rw [key, h]; simp⟩

/-- Witness for C8: an empty store has total revenue 0. -/
theorem c8_total_revenue_witness : statsTotalRevenue [] = 0 :=
  (c8_total_revenue []).2 rfl

/-- A 500 body exposes the detailed failure message when the message
appears in the body, either as the `error` field or as the `message`
field. -/
def exposesDetail (body : ErrorBody) (errMessage : String) : Prop :=
  body.error = errMessage ∨ body.message = some errMessage

/-- Claim C9 as stated: outside development mode, no 500 response of the
system — neither a controller catch block's nor the central
`errorHandler`'s — exposes the detailed failure message. -/
def c9Claim : Prop :=
  ∀ (environment errMessage : String), environment ≠ "development" →
    ¬ exposesDetail (catchResponse errMessage).2 errMessage
    ∧ ¬ exposesDetail (errorHandlerResponse environment errMessage).2 errMessage

/-- C9 fails on the code: in production mode a controller catch block
puts the raw exception message into the `error` field of its 500 body
(`res.status(500).json({ error: error.message })`), exposing the internal
detail. -/
theorem c9_counterexample : ¬ c9Claim := by
  intro hc
  exact (hc "production" "connect ECONNREFUSED 127.0.0.1:27017"
    (by decide)).1 (Or.inl rfl)

/-- C9 amended: every 500 body is a JSON object with an `error` string
field; the central `errorHandler` gates its detailed `message` behind
development mode (generic `Internal server error` otherwise), but the
controllers' catch blocks place the raw exception message in `error`
unconditionally, in every environment mode. -/
theorem c9_error_responses_amended (environment errMessage : String) :
    (catchResponse errMessage).1 = 500
    ∧ ((catchResponse errMessage).2).error = errMessage
    ∧ ((catchResponse errMessage).2).message = none
    ∧ (errorHandlerResponse environment errMessage).1 = 500
    ∧ ((errorHandlerResponse environment errMessage).2).error
        = "Something went wrong!"
    ∧ (environment = "development" →
        ((errorHandlerResponse environment errMessage).2).message
          = some errMessage)
    ∧ (environment ≠ "development" →
        ((errorHandlerResponse environment errMessage).2).message
          = some "Internal server error") := by
  refine ⟨rfl, rfl, rfl, rfl, rfl, fun h => ?_, fun h => ?_⟩ <;>
    simp [errorHandlerResponse, h]

/-- Witness for the amended C9 in development and production modes. -/
theorem c9_error_responses_amended_witness :
    ((errorHandlerResponse "development" "boom").2).message = some "boom"
    ∧ ((errorHandlerResponse "production" "boom").2).message
        = some "Internal server error" :=
  ⟨(c9_error_responses_amended "development" "boom").2.2.2.2.2.1 rfl,
   (c9_error_responses_amended "production" "boom").2.2.2.2.2.2 (by decide)⟩

/-- Claim C10 as stated: a header with at least two whitespace-separated
words makes the gate verify the second word as the token (regardless of
the first word), and a header with fewer than two words is rejected with
401. -/
def c10Claim : Prop :=
  ∀ (users : List User) (v : String → Option TokenClaims) (h : String),
    (2 ≤ (wsWords h).length →
      ∀ t, (wsWords h).get? 1 = some t →
        authenticateToken users v (some h) = verifyStep v t)
    ∧ ((wsWords h).length < 2 →
      authenticateToken users v (some h)
        = .unauthenticated 401 "Access token required")

/-- C10 fails on the code: the header `Bearer  x` (two spaces) has the
two whitespace-separated words `Bearer` and `x`, but the gate splits on
single spaces and takes index 1, the empty field between the two spaces,
which is falsy — so it answers 401 instead of verifying `x`. -/
theorem c10_counterexample : ¬ c10Claim := by
  intro hc
  have h := (hc [] (fun _ => none) "Bearer  x").1 (by decide) "x" (by decide)
  exact absurd h (by decide)

/-- C10 amended: the gate splits the header on single space characters
(JS `split(' ')`, which keeps empty fields) and takes the field at index
1: it answers 401 when the header has no such field or the field is the
empty string, and otherwise verifies that field as the token, whatever
the first field is (any scheme prefix is accepted). -/
theorem c10_token_extraction_amended (users : List User)
    (v : String → Option TokenClaims) (h : String) :
    ((jsSplitSpace h).get? 1 = none →
      authenticateToken users v (some h)
        = .unauthenticated 401 "Access token required")
    ∧ ((jsSplitSpace h).get? 1 = some "" →
      authenticateToken users v (some h)
        = .unauthenticated 401 "Access token required")
    ∧ (∀ t, (jsSplitSpace h).get? 1 = some t → t ≠ "" →
      authenticateToken users v (some h) = verifyStep v t) := by
  refine ⟨fun h1 => ?_, fun h1 => ?_, fun t h1 ht => ?_⟩
  · have e : extractedToken (some h) = none := by
      unfold extractedToken; dsimp only; rw [h1]
    simp [authenticateToken, e]
  · have e : extractedToken (some h) = none := by
      unfold extractedToken; dsimp only; rw [h1]; simp
    simp [authenticateToken, e]
  · have e : extractedToken (some h) = some t := by
      unfold extractedToken; dsimp only; rw [h1]; simp [ht]
    simp [authenticateToken, e]

/-- Witness for the amended C10: a non-`Bearer` scheme prefix is accepted
and the second field is verified. -/
theorem c10_token_extraction_amended_witness :
    authenticateToken [] (fun _ => some ⟨"u1", "a@x.com", "admin"⟩)
      (some "Basic abc") = .proceed ⟨"u1", "a@x.com", "admin"⟩ :=
  ((c10_token_extraction_amended [] (fun _ => some ⟨"u1", "a@x.com", "admin"⟩)
    "Basic abc").2.2 "abc" (by decide) (by decide)).trans rfl

end Cargo
